import Mathlib

/-!
Shallow embedding of the pagination controller of the
ReactNative-Endless-Scrolling repository (the `Posts` component in
`src/Posts.js`).  The component keeps a `pagination` object, an ordered
list of `posts` and a render-ready data source `ds`; the handlers
`_getPostsRequest`, `_getPostsSuccess`, `_getPostsFailure`, `_getPosts`,
`_onRefresh` and `_onEndReached` update that state and emit effects
(observer notification via `setState`/`cloneWithRows`, a fetch of a page
from the API collaborator, and `console.error` on failure).

JavaScript numeric fields that may be `undefined` (the initial
`pagination` is the empty object `{}`) are embedded as `Option Int`:
`none` stands for `undefined`, and also for `NaN` once `undefined`
enters arithmetic, since in JavaScript `undefined` coerces to `NaN`
and `NaN` propagates.  Comparisons involving `NaN` are `false`.
-/

set_option autoImplicit false

namespace EndlessScrolling

/-- A JavaScript number-or-undefined field: `none` is `undefined`
(or `NaN` after arithmetic), `some n` is the number `n`. -/
abbrev JSNum := Option Int

/-- JavaScript `+` on possibly-undefined numbers: `undefined` coerces to
`NaN` and `NaN` propagates, so `none` is absorbing. -/
def jsAdd : JSNum → JSNum → JSNum
  | some a, some b => some (a + b)
  | _, _ => none

/-- JavaScript `-` with the same `NaN` propagation. -/
def jsSub : JSNum → JSNum → JSNum
  | some a, some b => some (a - b)
  | _, _ => none

/-- JavaScript `*` with the same `NaN` propagation. -/
def jsMul : JSNum → JSNum → JSNum
  | some a, some b => some (a * b)
  | _, _ => none

/-- JavaScript `<=`: any comparison involving `NaN` (hence involving
`undefined`, which coerces to `NaN`) is `false`. -/
def jsLe : JSNum → JSNum → Bool
  | some a, some b => decide (a ≤ b)
  | _, _ => false

/-- JavaScript truthiness of a boolean-or-undefined value:
`undefined` is falsy. -/
def truthy : Option Bool → Bool
  | none => false
  | some b => b

/-- The `pagination` object.  The constructor initialises it to `{}`,
so every field may be `undefined` (`none`). -/
structure Pagination where
  page : JSNum := none
  perPage : JSNum := none
  pageCount : JSNum := none
  totalCount : JSNum := none
  loading : Option Bool := none
  deriving Repr, DecidableEq

/-- A post record: `{ title, description }`, opaque to the controller. -/
structure Item where
  title : String
  description : String
  deriving Repr, DecidableEq

/-- A row of the rendered list: either a post, or the synthetic
`{ type: 'Loading', loading: ... }` marker appended by `_update`. -/
inductive Row where
  | post (item : Item)
  | loadingMarker (loading : Option Bool)
  deriving Repr, DecidableEq

/-- A successful API payload `{ pagination, records }`. -/
structure FetchResult where
  pagination : Pagination
  records : List Item
  deriving Repr, DecidableEq

/-- The component state: `pagination`, `posts`, and the data source
`ds` (the row list last passed to `cloneWithRows`). -/
structure PostsState where
  pagination : Pagination
  posts : List Item
  ds : List Row
  deriving Repr, DecidableEq

/-- Observable effects of the handlers: an observer notification
carrying the freshly built row list (`setState` with the cloned data
source), an API fetch of a given page, or a `console.error` write. -/
inductive Eff where
  | notify (rows : List Row)
  | fetch (page : JSNum)
  | logError (error : String)
  deriving Repr, DecidableEq

/-- The state built by the constructor: `pagination: {}`, `posts: []`,
and an empty data source. -/
def initialState : PostsState :=
  { pagination := {}, posts := [], ds := [] }

/-- The row list built by `_update`: `[ ...posts, loading ]` where the
trailing entry is the synthetic loading marker carrying
`pagination.loading`. -/
def renderRows (posts : List Item) (loading : Option Bool) : List Row :=
  posts.map Row.post ++ [Row.loadingMarker loading]

/-- `_update(pagination, posts)`: rebuilds the row list, stores the new
`pagination`, `posts` and data source, and (through `setState`)
notifies observers with the new rows. -/
def update (pagination : Pagination) (posts : List Item) :
    PostsState × List Eff :=
  let rows := renderRows posts pagination.loading
  ({ pagination := pagination, posts := posts, ds := rows },
   [Eff.notify rows])

/-- `_getPostsRequest()`: `{ ...this.state.pagination, loading: true }`,
then `_update` with the unchanged posts. -/
def getPostsRequest (s : PostsState) : PostsState × List Eff :=
  update { s.pagination with loading := some true } s.posts

/-- `_getPostsSuccess(result)`: merges `loading: false` into the payload
pagination; posts become `result.records` when `pagination.page === 1`,
else `[ ...this.state.posts, ...result.records ]`. -/
def getPostsSuccess (s : PostsState) (result : FetchResult) :
    PostsState × List Eff :=
  let pagination := { result.pagination with loading := some false }
  let posts :=
    if pagination.page = some 1 then result.records
    else s.posts ++ result.records
  update pagination posts

/-- `_getPostsFailure(error)`: `{ ...this.state.pagination,
loading: false }`, `_update` with the unchanged posts, then
`console.error(error)`. -/
def getPostsFailure (s : PostsState) (error : String) :
    PostsState × List Eff :=
  let pagination := { s.pagination with loading := some false }
  let r := update pagination s.posts
  (r.1, r.2 ++ [Eff.logError error])

/-- `_getPosts(page)`: runs `_getPostsRequest()` and then invokes
`API.getPosts(page)` (the fetch effect); the success and failure
continuations are modelled by `getPostsSuccess` and
`getPostsFailure` applied when the promise settles. -/
def getPosts (s : PostsState) (page : JSNum) : PostsState × List Eff :=
  let r := getPostsRequest s
  (r.1, r.2 ++ [Eff.fetch page])

/-- `_onRefresh()`: `this._getPosts(1)`, unconditionally. -/
def onRefresh (s : PostsState) : PostsState × List Eff :=
  getPosts s (some 1)

/-- The `lastPage` computation of `_onEndReached`:
`totalCount <= (page - 1) * perPage + pageCount` under JavaScript
semantics (false whenever a field is `undefined`). -/
def lastPage (p : Pagination) : Bool :=
  jsLe p.totalCount (jsAdd (jsMul (jsSub p.page (some 1)) p.perPage) p.pageCount)

/-- `_onEndReached()`: if `!pagination.loading && !lastPage`, calls
`this._getPosts(page + 1)`; otherwise does nothing. -/
def onEndReached (s : PostsState) : PostsState × List Eff :=
  if !truthy s.pagination.loading && !lastPage s.pagination then
    getPosts s (jsAdd s.pagination.page (some 1))
  else
    (s, [])

/-- The pages fetched by a list of effects, in order: the projection of
the `Eff.fetch` entries. -/
def fetchRequests (effs : List Eff) : List JSNum :=
  effs.filterMap fun e =>
    match e with
    | Eff.fetch p => some p
    | _ => none

/-- Recognises the synthetic loading-marker row. -/
def isLoadingMarker : Row → Bool
  | Row.loadingMarker _ => true
  | _ => false

/-- A sample post record, used by the concrete scenarios. -/
def sampleItem (k : Nat) : Item :=
  { title := "Title " ++ toString k, description := "Description" }

/-- The mock page-1 payload of the README scenario:
`perPage = 10`, `pageCount = 10`, `totalCount = 22`. -/
def page1Result : FetchResult :=
  { pagination :=
      { page := some 1, perPage := some 10, pageCount := some 10,
        totalCount := some 22 },
    records := (List.range 10).map sampleItem }

/-- The mock page-2 payload: 10 more records, `totalCount = 22`. -/
def page2Result : FetchResult :=
  { pagination :=
      { page := some 2, perPage := some 10, pageCount := some 10,
        totalCount := some 22 },
    records := (List.range 10).map fun k => sampleItem (10 + k) }

/-- The mock page-3 payload: the 2 remaining records, `pageCount = 2`. -/
def page3Result : FetchResult :=
  { pagination :=
      { page := some 3, perPage := some 10, pageCount := some 2,
        totalCount := some 22 },
    records := (List.range 2).map fun k => sampleItem (20 + k) }

/-- The state after the mount-time `_getPosts(1)` resolves with the
page-1 payload. -/
def stateAfterPage1 : PostsState :=
  (getPostsSuccess (getPosts initialState (some 1)).1 page1Result).1

/-- The state after `_onEndReached` fetches page 2 and it resolves. -/
def stateAfterPage2 : PostsState :=
  (getPostsSuccess (getPosts stateAfterPage1 (some 2)).1 page2Result).1

/-- The state after `_onEndReached` fetches page 3 and it resolves. -/
def stateAfterPage3 : PostsState :=
  (getPostsSuccess (getPosts stateAfterPage2 (some 3)).1 page3Result).1

/-- Claim C1: on a successful fetch completion with payload
`{pagination: P, records: R}`, if `P.page == 1` the posts become exactly
`R` (full reset); if `P.page > 1` they become the previous posts
concatenated with `R` in order, with no de-duplication; in both cases
the stored pagination becomes `P` with `loading = false`. -/
theorem c1_success_reset_or_append (s : PostsState) (result : FetchResult) :
    (result.pagination.page = some 1 →
      (getPostsSuccess s result).1.posts = result.records) ∧
    (∀ n : Int, 1 < n → result.pagination.page = some n →
      (getPostsSuccess s result).1.posts = s.posts ++ result.records) ∧
    (getPostsSuccess s result).1.pagination =
      { result.pagination with loading := some false } := by
  refine ⟨fun h => ?_, fun n hn h => ?_, rfl⟩
  · simp [getPostsSuccess, update, h]
  · have hne : n ≠ 1 := by omega
    simp [getPostsSuccess, update, h, hne]

/-- Witness for C1 at the README payloads: page 1 resets, page 2
appends. -/
theorem c1_witness :
    (getPostsSuccess initialState page1Result).1.posts
      = page1Result.records ∧
    (getPostsSuccess stateAfterPage1 page2Result).1.posts
      = stateAfterPage1.posts ++ page2Result.records :=
  ⟨(c1_success_reset_or_append initialState page1Result).1 rfl,
   (c1_success_reset_or_append stateAfterPage1 page2Result).2.1 2
     (by norm_num) rfl⟩

/-- Claim C2: whenever the pagination fields are numbers satisfying
`totalCount <= (page - 1) * perPage + pageCount` (last page reached),
`_onEndReached` issues no fetch, regardless of the `loading` flag. -/
theorem c2_last_page_no_fetch (s : PostsState) (p pp pc tc : Int)
    (hp : s.pagination.page = some p)
    (hpp : s.pagination.perPage = some pp)
    (hpc : s.pagination.pageCount = some pc)
    (htc : s.pagination.totalCount = some tc)
    (hlast : tc ≤ (p - 1) * pp + pc) :
    fetchRequests (onEndReached s).2 = [] := by
  have hl : lastPage s.pagination = true := by
    simp [lastPage, hp, hpp, hpc, htc, jsLe, jsAdd, jsMul, jsSub, hlast]
  simp [onEndReached, hl, fetchRequests]

/-- Witness for C2: the page-3 pagination of the scenario with
`loading = true`; no fetch is issued. -/
theorem c2_witness :
    fetchRequests (onEndReached
      { pagination :=
          { page := some 3, perPage := some 10, pageCount := some 2,
            totalCount := some 22, loading := some true },
        posts := [], ds := [] }).2 = [] :=
  c2_last_page_no_fetch _ 3 10 2 22 rfl rfl rfl rfl (by norm_num)

/-- Claim C3: if `loading` is truthy, `_onEndReached` issues no fetch
whatever the pagination values; if `loading` is falsy and the last page
is not reached, it fetches exactly `page + 1`. -/
theorem c3_loading_gate (s : PostsState) :
    (truthy s.pagination.loading = true →
      fetchRequests (onEndReached s).2 = []) ∧
    (truthy s.pagination.loading = false →
      lastPage s.pagination = false →
      fetchRequests (onEndReached s).2
        = [jsAdd s.pagination.page (some 1)]) := by
  constructor
  · intro h
    simp [onEndReached, h, fetchRequests]
  · intro h hl
    simp [onEndReached, h, hl, getPosts, getPostsRequest, update,
      fetchRequests]

/-- Witness for C3: a loading state blocks the fetch; the idle page-1
scenario state fetches page 2. -/
theorem c3_witness :
    fetchRequests (onEndReached
      { pagination := { loading := some true },
        posts := [], ds := [] }).2 = [] ∧
    fetchRequests (onEndReached stateAfterPage1).2 = [some 2] := by
  constructor
  · exact (c3_loading_gate _).1 rfl
  · have h := (c3_loading_gate stateAfterPage1).2 (by decide) (by decide)
    rw [h]
    decide

/-- Claim C4: on fetch failure the posts are unchanged, the pagination
keeps every field and only `loading` becomes `false`, and the only
effects are the observer notification and the single diagnostic write
of the error; in particular no fetch is issued and the returned value
carries no failure indication beyond the diagnostic effect. -/
theorem c4_failure_state_and_effects (s : PostsState) (error : String) :
    (getPostsFailure s error).1.posts = s.posts ∧
    (getPostsFailure s error).1.pagination
      = { s.pagination with loading := some false } ∧
    (getPostsFailure s error).2
      = [Eff.notify (renderRows s.posts (some false)),
         Eff.logError error] ∧
    fetchRequests (getPostsFailure s error).2 = [] := by
  refine ⟨rfl, rfl, rfl, ?_⟩
  simp [getPostsFailure, update, fetchRequests]

/-- Claim C5: `_onRefresh` is exactly `_getPosts(1)`: it requests page 1
unconditionally, whatever the current state. -/
theorem c5_refresh_requests_page_one (s : PostsState) :
    onRefresh s = getPosts s (some 1) ∧
    fetchRequests (onRefresh s).2 = [some 1] := by
  refine ⟨rfl, ?_⟩
  simp [onRefresh, getPosts, getPostsRequest, update, fetchRequests]

/-- Claim C6: `requestPage(n)` (`_getPosts(n)`) sets `loading = true`
while preserving every other pagination field and the posts, first
notifies observers with the current posts plus the loading marker, and
then invokes the fetch collaborator for page `n` exactly once. -/
theorem c6_request_effects (s : PostsState) (n : JSNum) :
    (getPosts s n).1.pagination
      = { s.pagination with loading := some true } ∧
    (getPosts s n).1.posts = s.posts ∧
    (getPosts s n).2
      = [Eff.notify (renderRows s.posts (some true)), Eff.fetch n] :=
  ⟨rfl, rfl, rfl⟩

/-- Claim C7: the README scenario with `perPage = 10` and
`totalCount = 22`.  After pages 1 and 2 (10 records each),
`22 <= (2-1)*10+10 = 20` is false, so `_onEndReached` fetches page 3;
after page 3 returns `pageCount = 2`, `22 <= (3-1)*10+2 = 22` is true,
so a further `_onEndReached` issues no fetch. -/
theorem c7_scenario :
    lastPage stateAfterPage2.pagination = false ∧
    fetchRequests (onEndReached stateAfterPage2).2 = [some 3] ∧
    lastPage stateAfterPage3.pagination = true ∧
    fetchRequests (onEndReached stateAfterPage3).2 = [] := by
  decide

/-- The row list built by `_update` carries exactly one loading
marker. -/
theorem renderRows_marker_count (posts : List Item)
    (loading : Option Bool) :
    (renderRows posts loading).countP isLoadingMarker = 1 := by
  induction posts with
  | nil => rfl
  | cons a t ih =>
      simp only [renderRows, List.map_cons, List.cons_append,
        List.countP_cons, isLoadingMarker] at ih ⊢
      simpa using ih

/-- A handler result emits a well-formed render list: the stored data
source is the posts followed by the loading marker carrying the current
`pagination.loading`, the first emitted effect is the observer
notification with exactly that list, and the list holds exactly one
loading marker. -/
def rendersCorrectly (r : PostsState × List Eff) : Prop :=
  r.1.ds = renderRows r.1.posts r.1.pagination.loading ∧
  r.2.head? = some (Eff.notify r.1.ds) ∧
  r.1.ds.countP isLoadingMarker = 1

/-- Claim C8: every update of the render list — on fetch start, fetch
success and fetch failure — emits the ordered posts followed by exactly
one synthetic loading marker whose flag equals the current
`pagination.loading`. -/
theorem c8_render_list (s : PostsState) (result : FetchResult)
    (error : String) :
    rendersCorrectly (getPostsRequest s) ∧
    rendersCorrectly (getPostsSuccess s result) ∧
    rendersCorrectly (getPostsFailure s error) :=
  ⟨⟨rfl, rfl, renderRows_marker_count _ _⟩,
   ⟨rfl, rfl, renderRows_marker_count _ _⟩,
   ⟨rfl, rfl, renderRows_marker_count _ _⟩⟩

/-- Claim C9: with the constructor's empty pagination (every field
`undefined`), `_onEndReached` does issue a fetch: `lastPage` is false
(the comparison involves `NaN`), `!pagination.loading` is true, and the
requested page is `undefined + 1`, the non-numeric `NaN` (embedded as
`none`); nothing guards the empty state. -/
theorem c9_empty_pagination_fetch :
    truthy initialState.pagination.loading = false ∧
    lastPage initialState.pagination = false ∧
    fetchRequests (onEndReached initialState).2 = [none] := by
  decide

/-- Claim C10: the posts produced by a page-1 success are fully
determined by the fetch payload: two runs from arbitrary (possibly
different) accumulated states yield identical posts. -/
theorem c10_page_one_noninterference (s t : PostsState)
    (result : FetchResult) (h : result.pagination.page = some 1) :
    (getPostsSuccess s result).1.posts
      = (getPostsSuccess t result).1.posts := by
  simp [getPostsSuccess, update, h]

/-- Witness for C10: a page-1 success from the loaded page-2 state and
from the fresh state produce the same posts. -/
theorem c10_witness :
    (getPostsSuccess stateAfterPage2 page1Result).1.posts
      = (getPostsSuccess initialState page1Result).1.posts :=
  c10_page_one_noninterference stateAfterPage2 initialState page1Result rfl

end EndlessScrolling
